import Mathlib

/-!
# Link Controller session-state core: a verification development

A shallow embedding of the session-state synchronization core of the Link
Controller, together with proofs of its specified properties.

The repository ships only the Controller's test file
(`src/ableton/link/tst_Controller.cpp`); the implementation headers
(`Controller.hpp`, `Tempo.hpp`, `Timeline.hpp`, `StartStopState.hpp`,
`SessionState.hpp`) are not part of the sources.  The definitions below are
therefore modelled from the specification (conflict-resolution rules §4.2,
data model §3, error handling §7), and validated against the concrete
scenarios exercised by the test file at the end of this development.

Modelling conventions: tempi and beat positions are rationals (the code uses
doubles, but no behaviour under test depends on rounding), timestamps are
integers (microseconds), and callback invocations are reified as event lists
returned by each operation, in invocation order.  Concurrency is out of the
embedding's scope: each operation is a pure function of the controller state.
-/

namespace Link

/-- Modelled from the spec: `Tempo` (from the missing `Tempo.hpp`) is a
beats-per-minute value carrying the invariant `value ∈ [20, 999]`
(spec §3 data-model table, §4.1). -/
abbrev Tempo : Type := {x : ℚ // 20 ≤ x ∧ x ≤ 999}

/-- The beats-per-minute value of a `Tempo`. -/
def Tempo.bpm (t : Tempo) : ℚ := t.val

/-- Modelled from the spec: `Tempo` construction clamps its argument to
`[20, 999]`; out-of-range inputs are clamped, never rejected (spec §4.1, §7). -/
def Tempo.fromBpm (x : ℚ) : Tempo :=
  ⟨max 20 (min x 999), le_max_left 20 _, max_le (by norm_num) (min_le_right x 999)⟩

/-- Modelled from the spec: a `Timeline` (from the missing `Timeline.hpp`) is
an affine time-to-beats mapping: a `Tempo`, a beat origin and a time origin in
microseconds (spec §3). -/
structure Timeline where
  tempo : Tempo
  beatOrigin : ℚ
  timeOrigin : ℤ
deriving DecidableEq

/-- Modelled from the spec: a `StartStopState` (from the missing
`StartStopState.hpp`) is a transport flag paired with the host timestamp at
which it became effective (spec §3). -/
structure StartStopState where
  isPlaying : Bool
  timestamp : ℤ
deriving DecidableEq

/-- Modelled from the spec: the canonical `SessionState` aggregate, one
`Timeline` and one `StartStopState` (spec §3). -/
structure SessionState where
  timeline : Timeline
  startStopState : StartStopState
deriving DecidableEq

/-- Modelled from the spec: an `IncomingSessionState` is a partially-specified
candidate update — `Timeline` and `StartStopState` each independently
optional — plus an origin timestamp (spec §3). -/
structure IncomingSessionState where
  timeline : Option Timeline
  startStopState : Option StartStopState
  timestamp : ℤ
deriving DecidableEq

/-- Modelled from the spec: the `Controller` state visible to this core —
the two lifecycle flags, the reported peer count, and the canonical
`SessionState` (spec §2, §4.2).  The clock, io-context and callback
collaborators are external; callbacks are reified as event lists on each
operation's result. -/
structure Controller where
  enabled : Bool
  startStopSyncEnabled : Bool
  numPeers : ℕ
  state : SessionState
deriving DecidableEq

/-- Modelled from the spec: construction takes a requested initial tempo
(clamped at the `Tempo` boundary) and initializes disabled, start-stop-sync
disabled, peer count 0, and
`SessionState = {Timeline{clampedTempo, Beats{0}, 0}, StartStopState{false, 0}}`
(spec §4.2 Construction). -/
def mkController (bpm : ℚ) : Controller where
  enabled := false
  startStopSyncEnabled := false
  numPeers := 0
  state :=
    { timeline := ⟨Tempo.fromBpm bpm, 0, 0⟩
      startStopState := ⟨false, 0⟩ }

/-- The thread-safe read entry point: returns the current `SessionState`. -/
def Controller.sessionState (c : Controller) : SessionState := c.state

/-- The realtime-safe read entry point: returns the current `SessionState`
(both paths observe the same logical state, spec §4.2). -/
def Controller.sessionStateRtSafe (c : Controller) : SessionState := c.state

/-- Lifecycle flag query (spec §4.2 Lifecycle flags). -/
def Controller.isEnabled (c : Controller) : Bool := c.enabled

/-- Lifecycle flag toggle (spec §4.2 Lifecycle flags). -/
def Controller.enable (c : Controller) (b : Bool) : Controller :=
  { c with enabled := b }

/-- Start-stop-sync flag query (spec §4.2 Lifecycle flags). -/
def Controller.isStartStopSyncEnabled (c : Controller) : Bool :=
  c.startStopSyncEnabled

/-- Start-stop-sync flag toggle (spec §4.2 Lifecycle flags). -/
def Controller.enableStartStopSync (c : Controller) (b : Bool) : Controller :=
  { c with startStopSyncEnabled := b }

/-- Modelled from the spec: conflict-resolution rule 1/3 for the `Timeline`
field — a carried `Timeline` replaces the stored one in its entirety, an
absent one leaves it untouched (spec §4.2 rules 1 and 3). -/
def resolveTimeline (s : SessionState) (u : IncomingSessionState) : Timeline :=
  match u.timeline with
  | some tl => tl
  | none => s.timeline

/-- Modelled from the spec: conflict-resolution rule 2/3 for the
`StartStopState` field — a carried `StartStopState` is accepted only if its
timestamp is strictly greater than the stored one, otherwise it is discarded
as stale; an absent one leaves the stored value untouched (spec §4.2 rules 2
and 3). -/
def resolveStartStop (s : SessionState) (u : IncomingSessionState) :
    StartStopState :=
  match u.startStopState with
  | some ss =>
    if s.startStopState.timestamp < ss.timestamp then ss else s.startStopState
  | none => s.startStopState

/-- Modelled from the spec: the full conflict-resolution step, applied
identically by both write entry points (spec §4.2). -/
def resolve (s : SessionState) (u : IncomingSessionState) : SessionState :=
  ⟨resolveTimeline s u, resolveStartStop s u⟩

/-- The result of a write operation: the updated controller plus the
callback invocations the update caused, reified as event lists. -/
structure UpdateResult where
  controller : Controller
  tempoEvents : List Tempo
  startStopEvents : List Bool
deriving DecidableEq

/-- Modelled from the spec: one accepted update — resolve the incoming state
against the current one, store the result, and fire the tempo-changed
callback iff the resolved tempo differs from the pre-update tempo and the
start-stop-changed callback iff the resolved transport flag differs from the
pre-update flag (spec §4.2 rule 4). -/
def applyUpdate (c : Controller) (u : IncomingSessionState) : UpdateResult :=
  let old := c.state
  let new := resolve old u
  { controller := { c with state := new }
    tempoEvents :=
      if new.timeline.tempo = old.timeline.tempo then []
      else [new.timeline.tempo]
    startStopEvents :=
      if new.startStopState.isPlaying = old.startStopState.isPlaying then []
      else [new.startStopState.isPlaying] }

/-- The thread-safe write entry point (spec §4.2: the resolution algorithm is
applied identically by both write entry points). -/
def Controller.setSessionState (c : Controller) (u : IncomingSessionState) :
    UpdateResult :=
  applyUpdate c u

/-- The realtime-safe write entry point (spec §4.2: the resolution algorithm
is applied identically by both write entry points; only the thread of
callback execution differs, which is outside this embedding). -/
def Controller.setSessionStateRtSafe (c : Controller)
    (u : IncomingSessionState) : UpdateResult :=
  applyUpdate c u

/-- The result of a read operation: the returned `SessionState`, the
controller afterwards, and any callback invocations the read caused. -/
structure ReadResult where
  value : SessionState
  controller : Controller
  tempoEvents : List Tempo
  startStopEvents : List Bool
deriving DecidableEq

/-- Modelled from the spec: the thread-safe read as an operation.  The spec's
data model states `SessionState` is mutated only via accepted
`IncomingSessionState` values (spec §3) and callbacks fire only per accepted
update (spec §4.2), so a read changes no state and produces no events. -/
def Controller.readSessionState (c : Controller) : ReadResult :=
  ⟨c.sessionState, c, [], []⟩

/-- Modelled from the spec: the realtime-safe read as an operation; like the
thread-safe read it changes no state and produces no events. -/
def Controller.readSessionStateRtSafe (c : Controller) : ReadResult :=
  ⟨c.sessionStateRtSafe, c, [], []⟩

/-- Sequential application of a list of updates through the thread-safe write
path, accumulating the start-stop callback invocations in order. -/
def applyUpdates (c : Controller) (us : List IncomingSessionState) :
    Controller × List Bool :=
  match us with
  | [] => (c, [])
  | u :: rest =>
    let r := c.setSessionState u
    let tail := applyUpdates r.controller rest
    (tail.1, r.startStopEvents ++ tail.2)

/-! ## Claim theorems -/

/-- C1: for every `IncomingSessionState` carrying a `StartStopState`, through
either write path, the stored `StartStopState` becomes the incoming one
exactly when the incoming timestamp is strictly greater than the stored one,
and stays the stored one (its flag and timestamp unchanged) otherwise; the
rule does not consult `isPlaying`, so a strictly newer timestamp replaces the
stored state even when the flag value is unchanged. -/
theorem startStop_replaced_iff_strictly_newer (c : Controller)
    (u : IncomingSessionState) (ss : StartStopState)
    (h : u.startStopState = some ss) :
    ((c.setSessionState u).controller.state.startStopState
        = if c.state.startStopState.timestamp < ss.timestamp then ss
          else c.state.startStopState)
    ∧ ((c.setSessionStateRtSafe u).controller.state.startStopState
        = if c.state.startStopState.timestamp < ss.timestamp then ss
          else c.state.startStopState) := by
  constructor <;>
    simp [Controller.setSessionState, Controller.setSessionStateRtSafe,
      applyUpdate, resolve, resolveStartStop, h]

/-- Witness for C1: starting from construction (stored timestamp 0), an
update carrying `StartStopState{true, 5}` replaces the stored state. -/
theorem startStop_replaced_iff_strictly_newer_witness :
    ((mkController 100).setSessionState
        ⟨none, some ⟨true, 5⟩, 5⟩).controller.state.startStopState
      = ⟨true, 5⟩ := by
  rw [(startStop_replaced_iff_strictly_newer (mkController 100)
    ⟨none, some ⟨true, 5⟩, 5⟩ ⟨true, 5⟩ rfl).1]
  rfl

/-- C2: for every `IncomingSessionState` carrying a `Timeline`, through
either write path, the stored `Timeline` afterwards is the incoming one —
tempo, beat origin and time origin together — so no field of the old
`Timeline` survives. -/
theorem timeline_replaced_wholesale (c : Controller)
    (u : IncomingSessionState) (tl : Timeline) (h : u.timeline = some tl) :
    ((c.setSessionState u).controller.state.timeline = tl)
    ∧ ((c.setSessionStateRtSafe u).controller.state.timeline = tl) := by
  constructor <;>
    simp [Controller.setSessionState, Controller.setSessionStateRtSafe,
      applyUpdate, resolve, resolveTimeline, h]

/-- Witness for C2: an update carrying `Timeline{Tempo 60, Beats 0, 0}`
replaces the construction timeline entirely. -/
theorem timeline_replaced_wholesale_witness :
    ((mkController 100).setSessionState
        ⟨some ⟨Tempo.fromBpm 60, 0, 0⟩, none, 2⟩).controller.state.timeline
      = ⟨Tempo.fromBpm 60, 0, 0⟩ :=
  (timeline_replaced_wholesale (mkController 100)
    ⟨some ⟨Tempo.fromBpm 60, 0, 0⟩, none, 2⟩ ⟨Tempo.fromBpm 60, 0, 0⟩ rfl).1

/-- C3: through either write path, the tempo-changed callback fires, with
the new tempo, exactly when the resolved tempo differs from the pre-update
tempo; in particular a timeline update that changes only beat origin and
time origin while carrying the stored tempo fires nothing. -/
theorem tempo_callback_iff_changed (c : Controller)
    (u : IncomingSessionState) :
    ((c.setSessionState u).tempoEvents = [] ↔
        (resolve c.state u).timeline.tempo = c.state.timeline.tempo)
    ∧ ((resolve c.state u).timeline.tempo ≠ c.state.timeline.tempo →
        (c.setSessionState u).tempoEvents
          = [(resolve c.state u).timeline.tempo])
    ∧ ((c.setSessionStateRtSafe u).tempoEvents = [] ↔
        (resolve c.state u).timeline.tempo = c.state.timeline.tempo)
    ∧ ((resolve c.state u).timeline.tempo ≠ c.state.timeline.tempo →
        (c.setSessionStateRtSafe u).tempoEvents
          = [(resolve c.state u).timeline.tempo])
    ∧ (∀ tl : Timeline, u.timeline = some tl →
        tl.tempo = c.state.timeline.tempo →
        (c.setSessionState u).tempoEvents = []
          ∧ (c.setSessionStateRtSafe u).tempoEvents = []) := by
  have fifth : ∀ tl : Timeline, u.timeline = some tl →
      tl.tempo = c.state.timeline.tempo →
      (c.setSessionState u).tempoEvents = []
        ∧ (c.setSessionStateRtSafe u).tempoEvents = [] := by
    intro tl htl heq
    constructor <;>
      simp [Controller.setSessionState, Controller.setSessionStateRtSafe,
        applyUpdate, resolve, resolveTimeline, htl, heq]
  refine ⟨?_, ?_, ?_, ?_, fifth⟩ <;>
    by_cases h : (resolve c.state u).timeline.tempo = c.state.timeline.tempo <;>
      simp [Controller.setSessionState, Controller.setSessionStateRtSafe,
        applyUpdate, h]

/-- Witness for C3: from a controller at tempo 50, an update moving only the
beat origin and time origin while keeping tempo 50 fires no tempo callback. -/
theorem tempo_callback_iff_changed_witness :
    ((mkController 50).setSessionState
        ⟨some ⟨Tempo.fromBpm 50, 1, 2⟩, none, 3⟩).tempoEvents = [] :=
  ((tempo_callback_iff_changed (mkController 50)
      ⟨some ⟨Tempo.fromBpm 50, 1, 2⟩, none, 3⟩).2.2.2.2
    ⟨Tempo.fromBpm 50, 1, 2⟩ rfl rfl).1

/-- Helper for C4: a run of stored updates all carrying the transport flag
`p` at strictly increasing timestamps fires the start-stop callback exactly
at the transition, if there is one. -/
theorem applyUpdates_same_flag (p : Bool) (ts : List ℤ) :
    ∀ c : Controller,
      List.Chain (fun a b => a < b) c.state.startStopState.timestamp ts →
      (applyUpdates c (ts.map fun t => ⟨none, some ⟨p, t⟩, t⟩)).2
        = if ts = [] then []
          else if p = c.state.startStopState.isPlaying then [] else [p] := by
  induction ts with
  | nil => intro c _; simp [applyUpdates]
  | cons t rest ih =>
    intro c h
    cases h with
    | cons hlt hchain =>
      have hc : (c.setSessionState ⟨none, some ⟨p, t⟩, t⟩).controller
          = { c with state := ⟨c.state.timeline, ⟨p, t⟩⟩ } := by
        simp [Controller.setSessionState, applyUpdate, resolve,
          resolveTimeline, resolveStartStop, hlt]
      have hev : (c.setSessionState ⟨none, some ⟨p, t⟩, t⟩).startStopEvents
          = if p = c.state.startStopState.isPlaying then [] else [p] := by
        simp [Controller.setSessionState, applyUpdate, resolve,
          resolveTimeline, resolveStartStop, hlt]
      have htail := ih { c with state := ⟨c.state.timeline, ⟨p, t⟩⟩ }
        (by exact hchain)
      simp only [List.map_cons, applyUpdates, hc, hev, htail]
      simp

/-- C4: through either write path, the start-stop-changed callback fires,
with the new flag, exactly when the resolved `isPlaying` differs from the
pre-update one; and a sequence of stored updates all carrying flag `p` at
strictly increasing timestamps fires it at most once — nothing when `p`
already equals the stored flag, and exactly one event at the transition
otherwise. -/
theorem startStop_callback_iff_changed (c : Controller)
    (u : IncomingSessionState) :
    ((c.setSessionState u).startStopEvents = [] ↔
        (resolve c.state u).startStopState.isPlaying
          = c.state.startStopState.isPlaying)
    ∧ ((resolve c.state u).startStopState.isPlaying
          ≠ c.state.startStopState.isPlaying →
        (c.setSessionState u).startStopEvents
          = [(resolve c.state u).startStopState.isPlaying])
    ∧ ((c.setSessionStateRtSafe u).startStopEvents = [] ↔
        (resolve c.state u).startStopState.isPlaying
          = c.state.startStopState.isPlaying)
    ∧ ((resolve c.state u).startStopState.isPlaying
          ≠ c.state.startStopState.isPlaying →
        (c.setSessionStateRtSafe u).startStopEvents
          = [(resolve c.state u).startStopState.isPlaying])
    ∧ (∀ (p : Bool) (ts : List ℤ),
        List.Chain (fun a b => a < b) c.state.startStopState.timestamp ts →
        (applyUpdates c (ts.map fun t => ⟨none, some ⟨p, t⟩, t⟩)).2
          = if ts = [] then []
            else if p = c.state.startStopState.isPlaying then [] else [p]) := by
  refine ⟨?_, ?_, ?_, ?_, fun p ts h => applyUpdates_same_flag p ts c h⟩ <;>
    by_cases h : (resolve c.state u).startStopState.isPlaying
        = c.state.startStopState.isPlaying <;>
      simp [Controller.setSessionState, Controller.setSessionStateRtSafe,
        applyUpdate, h]

/-- Witness for C4: from construction (flag `false` at timestamp 0), three
updates carrying `true` at timestamps 1, 2, 3 fire the callback exactly
once, with `true`. -/
theorem startStop_callback_iff_changed_witness :
    (applyUpdates (mkController 100)
        ([1, 2, 3].map fun t => ⟨none, some ⟨true, t⟩, t⟩)).2 = [true] := by
  have h := (startStop_callback_iff_changed (mkController 100)
      ⟨none, none, 0⟩).2.2.2.2 true [1, 2, 3]
    (List.Chain.cons (by decide)
      (List.Chain.cons (by decide) (List.Chain.cons (by decide)
        List.Chain.nil)))
  simpa [mkController] using h

/-- C5: after an update through either write path, the thread-safe read and
the realtime-safe read return the same logical `SessionState`. -/
theorem cross_path_consistency (c : Controller) (u : IncomingSessionState) :
    ((c.setSessionState u).controller.sessionState
        = (c.setSessionState u).controller.sessionStateRtSafe)
    ∧ ((c.setSessionStateRtSafe u).controller.sessionState
        = (c.setSessionStateRtSafe u).controller.sessionStateRtSafe) :=
  ⟨rfl, rfl⟩

/-- C6: the tempo stored in the initial timeline is the requested tempo
clamped to `[20, 999]`: it always lies in the range, an in-range request is
stored unchanged, and out-of-range requests are clamped to the nearer bound,
never rejected. -/
theorem construction_tempo_clamped (t : ℚ) :
    (20 ≤ (mkController t).sessionState.timeline.tempo.bpm
      ∧ (mkController t).sessionState.timeline.tempo.bpm ≤ 999)
    ∧ (20 ≤ t → t ≤ 999 →
        (mkController t).sessionState.timeline.tempo.bpm = t)
    ∧ (t ≤ 20 → (mkController t).sessionState.timeline.tempo.bpm = 20)
    ∧ (999 ≤ t → (mkController t).sessionState.timeline.tempo.bpm = 999) := by
  refine ⟨(Tempo.fromBpm t).property, ?_, ?_, ?_⟩ <;>
    simp only [mkController, Controller.sessionState, Tempo.fromBpm, Tempo.bpm]
  · intro h1 h2
    rw [min_eq_left h2, max_eq_right h1]
  · intro h
    rw [min_eq_left (le_trans h (by norm_num)), max_eq_left h]
  · intro h
    rw [min_eq_right h, max_eq_right (by norm_num)]

/-- Witness for C6: the spec's three examples — a requested tempo of 1 is
stored as 20, of 100000 as 999, and of 100 unchanged. -/
theorem construction_tempo_clamped_witness :
    (mkController 1).sessionState.timeline.tempo.bpm = 20
    ∧ (mkController 100000).sessionState.timeline.tempo.bpm = 999
    ∧ (mkController 100).sessionState.timeline.tempo.bpm = 100 :=
  ⟨(construction_tempo_clamped 1).2.2.1 (by norm_num),
   (construction_tempo_clamped 100000).2.2.2 (by norm_num),
   (construction_tempo_clamped 100).2.1 (by norm_num) (by norm_num)⟩

/-- C7: immediately after construction with any requested tempo, the
controller is disabled, start-stop sync is disabled, the peer count is 0, and
the session state is the timeline with the clamped tempo at beat origin 0 and
time origin 0 paired with `StartStopState{false, 0}`. -/
theorem construction_initial_state (t : ℚ) :
    (mkController t).isEnabled = false
    ∧ (mkController t).isStartStopSyncEnabled = false
    ∧ (mkController t).numPeers = 0
    ∧ (mkController t).sessionState
        = ⟨⟨Tempo.fromBpm t, 0, 0⟩, ⟨false, 0⟩⟩ :=
  ⟨rfl, rfl, rfl, rfl⟩

/-- C8: `enable` and `enableStartStopSync` are independent, default-false
toggles: each sets exactly its own flag to the given value, leaves the other
flag as it was, and leaves the session state and the peer count unchanged. -/
theorem lifecycle_toggles_independent (c : Controller) (b : Bool) (t : ℚ) :
    ((c.enable b).isEnabled = b)
    ∧ ((c.enable b).isStartStopSyncEnabled = c.isStartStopSyncEnabled)
    ∧ ((c.enable b).sessionState = c.sessionState)
    ∧ ((c.enable b).numPeers = c.numPeers)
    ∧ ((c.enableStartStopSync b).isStartStopSyncEnabled = b)
    ∧ ((c.enableStartStopSync b).isEnabled = c.isEnabled)
    ∧ ((c.enableStartStopSync b).sessionState = c.sessionState)
    ∧ ((c.enableStartStopSync b).numPeers = c.numPeers)
    ∧ ((mkController t).isEnabled = false)
    ∧ ((mkController t).isStartStopSyncEnabled = false) :=
  ⟨rfl, rfl, rfl, rfl, rfl, rfl, rfl, rfl, rfl, rfl⟩

/-- C9: state updates never fail or surface an error: both write paths are
one total function of the input, the stored tempo after any update is always
within `[20, 999]`, a timeline whose tempo was requested out of range
(normalized at the `Tempo` value-type boundary) is stored with the nearer
legal bound, and a stale `StartStopState` is silently discarded with the
stored one left unchanged. -/
theorem updates_never_fail (c : Controller) (u : IncomingSessionState) :
    (c.setSessionState u = c.setSessionStateRtSafe u)
    ∧ (20 ≤ (c.setSessionState u).controller.state.timeline.tempo.bpm
        ∧ (c.setSessionState u).controller.state.timeline.tempo.bpm ≤ 999)
    ∧ (∀ (x : ℚ) (tl : Timeline), u.timeline = some tl →
        tl.tempo = Tempo.fromBpm x → 999 ≤ x →
        (c.setSessionState u).controller.state.timeline.tempo.bpm = 999)
    ∧ (∀ (x : ℚ) (tl : Timeline), u.timeline = some tl →
        tl.tempo = Tempo.fromBpm x → x ≤ 20 →
        (c.setSessionState u).controller.state.timeline.tempo.bpm = 20)
    ∧ (∀ ss : StartStopState, u.startStopState = some ss →
        ss.timestamp ≤ c.state.startStopState.timestamp →
        (c.setSessionState u).controller.state.startStopState
          = c.state.startStopState) := by
  refine ⟨rfl,
    (c.setSessionState u).controller.state.timeline.tempo.property,
    ?_, ?_, ?_⟩
  · intro x tl htl htempo hx
    have hrep : (c.setSessionState u).controller.state.timeline = tl := by
      simp [Controller.setSessionState, applyUpdate, resolve,
        resolveTimeline, htl]
    rw [hrep, htempo]
    simp only [Tempo.fromBpm, Tempo.bpm]
    rw [min_eq_right hx, max_eq_right (by norm_num)]
  · intro x tl htl htempo hx
    have hrep : (c.setSessionState u).controller.state.timeline = tl := by
      simp [Controller.setSessionState, applyUpdate, resolve,
        resolveTimeline, htl]
    rw [hrep, htempo]
    simp only [Tempo.fromBpm, Tempo.bpm]
    rw [min_eq_left (le_trans hx (by norm_num)), max_eq_left hx]
  · intro ss hss hle
    simp [Controller.setSessionState, applyUpdate, resolve,
      resolveStartStop, hss, not_lt.mpr hle]

/-- Witness for C9: an update requesting tempo 100000 (normalized to 999)
together with a stale `StartStopState{true, 0}` against construction state
(stored timestamp 0) stores tempo 999 and leaves the transport state
unchanged. -/
theorem updates_never_fail_witness :
    ((mkController 100).setSessionState
        ⟨some ⟨Tempo.fromBpm 100000, 0, 0⟩, some ⟨true, 0⟩,
          0⟩).controller.state.timeline.tempo.bpm = 999
    ∧ ((mkController 100).setSessionState
        ⟨some ⟨Tempo.fromBpm 100000, 0, 0⟩, some ⟨true, 0⟩,
          0⟩).controller.state.startStopState
      = (mkController 100).state.startStopState :=
  ⟨(updates_never_fail (mkController 100)
      ⟨some ⟨Tempo.fromBpm 100000, 0, 0⟩, some ⟨true, 0⟩, 0⟩).2.2.1
    100000 ⟨Tempo.fromBpm 100000, 0, 0⟩ rfl rfl (by norm_num),
   (updates_never_fail (mkController 100)
      ⟨some ⟨Tempo.fromBpm 100000, 0, 0⟩, some ⟨true, 0⟩, 0⟩).2.2.2.2
    ⟨true, 0⟩ rfl (by decide)⟩

/-- C10: reads are pure — either read entry point leaves the controller (and
in particular its stored `SessionState`) unchanged, invokes no callback, and
so any number of consecutive reads return the same `SessionState`. -/
theorem reads_are_pure (c : Controller) :
    (c.readSessionState.controller = c)
    ∧ (c.readSessionState.tempoEvents = []
        ∧ c.readSessionState.startStopEvents = [])
    ∧ (c.readSessionStateRtSafe.controller = c)
    ∧ (c.readSessionStateRtSafe.tempoEvents = []
        ∧ c.readSessionStateRtSafe.startStopEvents = [])
    ∧ (c.readSessionState.controller.readSessionState.value
        = c.readSessionState.value)
    ∧ (c.readSessionStateRtSafe.controller.readSessionStateRtSafe.value
        = c.readSessionStateRtSafe.value) :=
  ⟨rfl, ⟨rfl, rfl⟩, rfl, ⟨rfl, rfl⟩, rfl, rfl⟩

/-! ## Validation against the repository's test file

The scenarios of `src/ableton/link/tst_Controller.cpp` replayed on the
model, with the mock clock's times made explicit (it starts at 1 microsecond
and each `advance()` adds one). -/

/-- `SetAndGetSessionStateThreadSafe` replayed: from tempo 100, storing
`{Timeline{60, 0, 0}, StartStopState{true, 2}}` is observed in full; a
follow-up carrying the stale `StartStopState{false, 0}` changes nothing; and
`{Timeline{80, 1, 6}, StartStopState{false, 3}}` is then stored in full. -/
theorem validation_setAndGet_threadSafe :
    (((mkController 100).setSessionState
        ⟨some ⟨Tempo.fromBpm 60, 0, 0⟩, some ⟨true, 2⟩, 2⟩).controller.sessionState
      = ⟨⟨Tempo.fromBpm 60, 0, 0⟩, ⟨true, 2⟩⟩)
    ∧ ((((mkController 100).setSessionState
          ⟨some ⟨Tempo.fromBpm 60, 0, 0⟩, some ⟨true, 2⟩, 2⟩).controller.setSessionState
          ⟨some ⟨Tempo.fromBpm 60, 0, 0⟩, some ⟨false, 0⟩, 2⟩).controller.sessionState
      = ⟨⟨Tempo.fromBpm 60, 0, 0⟩, ⟨true, 2⟩⟩)
    ∧ (((((mkController 100).setSessionState
          ⟨some ⟨Tempo.fromBpm 60, 0, 0⟩, some ⟨true, 2⟩, 2⟩).controller.setSessionState
          ⟨some ⟨Tempo.fromBpm 60, 0, 0⟩, some ⟨false, 0⟩, 2⟩).controller.setSessionState
          ⟨some ⟨Tempo.fromBpm 80, 1, 6⟩, some ⟨false, 3⟩, 3⟩).controller.sessionState
      = ⟨⟨Tempo.fromBpm 80, 1, 6⟩, ⟨false, 3⟩⟩) := by
  decide

/-- `SetAndGetSessionStateRealtimeSafe` replayed on the realtime-safe
entry points, with the test's tempi 110 and 90 and beat origin 1.4. -/
theorem validation_setAndGet_rtSafe :
    (((mkController 100).setSessionStateRtSafe
        ⟨some ⟨Tempo.fromBpm 110, 0, 0⟩, some ⟨true, 2⟩, 2⟩).controller.sessionState
      = ⟨⟨Tempo.fromBpm 110, 0, 0⟩, ⟨true, 2⟩⟩)
    ∧ ((((mkController 100).setSessionStateRtSafe
          ⟨some ⟨Tempo.fromBpm 110, 0, 0⟩, some ⟨true, 2⟩, 2⟩).controller.setSessionStateRtSafe
          ⟨some ⟨Tempo.fromBpm 110, 0, 0⟩, some ⟨false, 0⟩, 2⟩).controller.sessionStateRtSafe
      = ⟨⟨Tempo.fromBpm 110, 0, 0⟩, ⟨true, 2⟩⟩)
    ∧ (((((mkController 100).setSessionStateRtSafe
          ⟨some ⟨Tempo.fromBpm 110, 0, 0⟩, some ⟨true, 2⟩, 2⟩).controller.setSessionStateRtSafe
          ⟨some ⟨Tempo.fromBpm 110, 0, 0⟩, some ⟨false, 0⟩, 2⟩).controller.setSessionStateRtSafe
          ⟨some ⟨Tempo.fromBpm 90, 7 / 5, 5⟩, some ⟨false, 3⟩, 3⟩).controller.sessionStateRtSafe
      = ⟨⟨Tempo.fromBpm 90, 7 / 5, 5⟩, ⟨false, 3⟩⟩) :=
  ⟨rfl, rfl, rfl⟩

/-- `CallbacksCalledBySettingSessionStateThreadSafe` replayed: the first
update (tempo 50, playing) fires both callbacks once; the second, changing
only beat origin, time origin and the transport timestamp, fires neither. -/
theorem validation_callbacks_threadSafe :
    (((mkController 100).setSessionState
        ⟨some ⟨Tempo.fromBpm 50, 0, 0⟩, some ⟨true, 2⟩, 2⟩).tempoEvents
      = [Tempo.fromBpm 50])
    ∧ (((mkController 100).setSessionState
        ⟨some ⟨Tempo.fromBpm 50, 0, 0⟩, some ⟨true, 2⟩, 2⟩).startStopEvents
      = [true])
    ∧ ((((mkController 100).setSessionState
          ⟨some ⟨Tempo.fromBpm 50, 0, 0⟩, some ⟨true, 2⟩, 2⟩).controller.setSessionState
          ⟨some ⟨Tempo.fromBpm 50, 1, 2⟩, some ⟨true, 3⟩, 3⟩).tempoEvents
      = [])
    ∧ ((((mkController 100).setSessionState
          ⟨some ⟨Tempo.fromBpm 50, 0, 0⟩, some ⟨true, 2⟩, 2⟩).controller.setSessionState
          ⟨some ⟨Tempo.fromBpm 50, 1, 2⟩, some ⟨true, 3⟩, 3⟩).startStopEvents
      = []) := by
  decide

/-- `CallbacksCalledBySettingSessionStateRealtimeSafe` replayed with the
test's tempo 130 on the realtime-safe write path. -/
theorem validation_callbacks_rtSafe :
    (((mkController 100).setSessionStateRtSafe
        ⟨some ⟨Tempo.fromBpm 130, 0, 0⟩, some ⟨true, 2⟩, 2⟩).tempoEvents
      = [Tempo.fromBpm 130])
    ∧ (((mkController 100).setSessionStateRtSafe
        ⟨some ⟨Tempo.fromBpm 130, 0, 0⟩, some ⟨true, 2⟩, 2⟩).startStopEvents
      = [true])
    ∧ ((((mkController 100).setSessionStateRtSafe
          ⟨some ⟨Tempo.fromBpm 130, 0, 0⟩, some ⟨true, 2⟩, 2⟩).controller.setSessionStateRtSafe
          ⟨some ⟨Tempo.fromBpm 130, 1, 2⟩, some ⟨true, 3⟩, 3⟩).tempoEvents
      = [])
    ∧ ((((mkController 100).setSessionStateRtSafe
          ⟨some ⟨Tempo.fromBpm 130, 0, 0⟩, some ⟨true, 2⟩, 2⟩).controller.setSessionStateRtSafe
          ⟨some ⟨Tempo.fromBpm 130, 1, 2⟩, some ⟨true, 3⟩, 3⟩).startStopEvents
      = []) := by
  decide

/-- `ConstructOptimistically` and `ConstructWithInvalidTempo` replayed:
construction at tempo 100 reports disabled, sync disabled, zero peers and
tempo 100; construction at tempi 1 and 100000 reports tempi 20 and 999. -/
theorem validation_construction_tests :
    ((mkController 100).isEnabled = false)
    ∧ ((mkController 100).isStartStopSyncEnabled = false)
    ∧ ((mkController 100).numPeers = 0)
    ∧ ((mkController 100).sessionState.timeline.tempo.bpm = 100)
    ∧ ((mkController 1).sessionState.timeline.tempo.bpm = 20)
    ∧ ((mkController 100000).sessionState.timeline.tempo.bpm = 999) := by
  decide

end Link
